import Mathlib

/-!
# Verification of the `transcr` live-captioning pipeline core

Shallow embedding of `src/model.py` (`ContinuousTranscriber`): audio samples
are exact rationals, frames are lists of samples, the frame queue is a list of
pop events, and engine calls (Whisper transcription, Marian translation) are
oracles supplied as inputs.  Each definition mirrors the corresponding Python
function; theorems settle the frozen specification claims.
-/

namespace Transcr

/-! ## Constants (from `ContinuousTranscriber.__init__`) -/

/-- `self.sample_rate = 16000`. -/
def sample_rate : ℕ := 16000

/-- `self.buffer_duration = 2` (seconds). -/
def buffer_duration : ℕ := 2

/-- `self.samples_per_chunk = int(self.sample_rate * self.buffer_duration)`. -/
def samples_per_chunk : ℕ := sample_rate * buffer_duration

/-- `self.min_audio_level = 0.01`. -/
def min_audio_level : ℚ := 1 / 100

/-- The assembly-window ceiling `self.buffer_duration * 1.5` used in
`process_audio`'s collection loop. -/
def assembly_ceiling : ℚ := (buffer_duration : ℚ) * (3 / 2)

/-- The keepalive threshold `5.0` seconds used in `process_audio`. -/
def keepalive_threshold : ℚ := 5

/-! ## Silence gate and normalization (`process_audio_chunk`, lines 219–229) -/

/-- `np.max(np.abs(audio_data))`: peak absolute amplitude of a chunk
(`0` for the empty chunk). -/
def peakAmplitude (xs : List ℚ) : ℚ :=
  xs.foldr (fun x m => max |x| m) 0

@[simp] theorem peakAmplitude_nil : peakAmplitude [] = 0 := rfl

@[simp] theorem peakAmplitude_cons (x : ℚ) (xs : List ℚ) :
    peakAmplitude (x :: xs) = max |x| (peakAmplitude xs) := rfl

theorem peakAmplitude_nonneg (xs : List ℚ) : 0 ≤ peakAmplitude xs := by
  induction xs with
  | nil => simp [peakAmplitude]
  | cons x xs ih =>
    simp only [peakAmplitude, List.foldr_cons] at *
    exact le_trans ih (le_max_right _ _)

theorem abs_le_peakAmplitude {x : ℚ} {xs : List ℚ} (hx : x ∈ xs) :
    |x| ≤ peakAmplitude xs := by
  induction xs with
  | nil => cases hx
  | cons y ys ih =>
    simp only [peakAmplitude, List.foldr_cons]
    rcases List.mem_cons.mp hx with h | h
    · exact h ▸ le_max_left _ _
    · exact le_trans (ih h) (le_max_right _ _)

theorem peakAmplitude_map_div {p : ℚ} (hp : 0 < p) (xs : List ℚ) :
    peakAmplitude (xs.map (· / p)) = peakAmplitude xs / p := by
  induction xs with
  | nil => simp [peakAmplitude]
  | cons x xs ih =>
    simp only [peakAmplitude, List.map_cons, List.foldr_cons] at *
    rw [ih, abs_div, abs_of_pos hp, max_div_div_right hp.le]

/-! ## String helpers

Python's `str.lower()` and `str.strip()`, rendered as structurally recursive
functions over the character list (ASCII case folding; `.strip()` removes
leading and trailing whitespace). -/

/-- ASCII lower-casing of one character (`str.lower()` on the alphabet the
language table uses). -/
def lowerChar (c : Char) : Char :=
  if c.isUpper then Char.ofNat (c.toNat + 32) else c

/-- `s.lower()`. -/
def lowerStr (s : String) : String := ⟨s.data.map lowerChar⟩

/-- `s.strip()`: drop leading and trailing whitespace. -/
def trimStr (s : String) : String :=
  ⟨(s.data.dropWhile Char.isWhitespace).reverse.dropWhile Char.isWhitespace |>.reverse⟩

/-! ## Transcription-segment joining (`process_audio_chunk`, lines 252–258) -/

/-- `" ".join(transcription_parts).strip()`. -/
def joinSegments (parts : List String) : String :=
  trimStr (String.intercalate " " parts)

/-! ## Translation adapter (`_translate_text`, lines 168–215)

The configuration flags mirror the instance attributes consulted by
`_translate_text`; the Marian `generate`/`decode` call is an oracle
(`none` models the exception path, i.e. translation failure). -/

structure TransCfg where
  /-- `self.target_language` (already validated). -/
  targetLanguage : String
  /-- `self.translation_available`. -/
  translationAvailable : Bool
  /-- `self.translation_model and self.translation_tokenizer` both loaded. -/
  modelLoaded : Bool

/-- `_translate_text(text)`: returns the translation (or `none` on any of the
early-return paths and on engine failure) together with whether the
translation engine (`MarianMTModel.generate`) was actually invoked. -/
def translate_text (cfg : TransCfg) (engine : Option String) (text : String) :
    Option String × Bool :=
  if text = "" ∨ cfg.targetLanguage = "en" then (none, false)
  else if cfg.translationAvailable = false then (none, false)
  else if cfg.modelLoaded = false then (none, false)
  else (engine, true)

/-! ## Chunk processing (`process_audio_chunk`, lines 217–280) -/

/-- Observable outcome of one `process_audio_chunk` call. -/
structure ChunkOutcome where
  /-- The returned `(transcription, translation)` pair (`None` ↦ `none`). -/
  result : Option String × Option String
  /-- Whether `self.whisper_model.transcribe` was invoked. -/
  transcribeCalled : Bool
  /-- The buffer handed to `transcribe` (when it was invoked). -/
  transcribeInput : Option (List ℚ)
  /-- The divisor used by the normalization `audio_data / audio_level`
  (when that division was executed). -/
  divisor : Option ℚ
  /-- Whether the translation engine was invoked (via `_translate_text`). -/
  translateCalled : Bool
  deriving Repr, DecidableEq

/-- `process_audio_chunk(audio_data)`.  `segs` is the list of segment texts the
Whisper oracle yields for this chunk; `engine` is the translation oracle. -/
def process_audio_chunk (cfg : TransCfg) (segs : List String)
    (engine : Option String) (xs : List ℚ) : ChunkOutcome :=
  let lvl := peakAmplitude xs
  if lvl < min_audio_level then
    { result := (none, none), transcribeCalled := false, transcribeInput := none,
      divisor := none, translateCalled := false }
  else
    let norm := if 0 < lvl then (xs.map (· / lvl), some lvl) else (xs, none)
    let transcription := joinSegments segs
    if transcription = "" then
      { result := (none, none), transcribeCalled := true,
        transcribeInput := some norm.1, divisor := norm.2, translateCalled := false }
    else if cfg.targetLanguage ≠ "en" then
      let t := translate_text cfg engine transcription
      { result := (some transcription, t.1), transcribeCalled := true,
        transcribeInput := some norm.1, divisor := norm.2, translateCalled := t.2 }
    else
      { result := (some transcription, none), transcribeCalled := true,
        transcribeInput := some norm.1, divisor := norm.2, translateCalled := false }

/-! ## Language validation (`_validate_language`, lines 148–158) -/

/-- `self.available_languages` (a dict with insertion order preserved). -/
def available_languages : List (String × String) :=
  [("English", "en"), ("Spanish", "es"), ("French", "fr"), ("Italian", "it"),
   ("Portuguese", "pt"), ("Romanian", "ro"), ("Catalan", "ca"), ("German", "de"),
   ("Dutch", "nl"), ("Russian", "ru"), ("Japanese", "ja"), ("Chinese", "zh")]

/-- `_validate_language(language_code)`: the returned code, paired with whether
the invalid-input warning was logged. -/
def validate_language (lc : String) : String × Bool :=
  if (available_languages.map Prod.snd).contains lc then (lc, false)
  else
    match available_languages.find? (fun p => lowerStr lc == lowerStr p.1) with
    | some p => (p.2, false)
    | none => ("en", true)

/-! ## Result dispatch (`process_audio`, lines 331–345)

One outer-loop cycle ends with
```
transcription, translation = self.process_audio_chunk(audio_data)
if transcription and self.callback_function:
    self.callback_function(transcription, translation)
    last_transcription_time = time.time()
elif time.time() - last_transcription_time > 5.0:
    if self.callback_function:
        self.callback_function("", "")
```
A callback invocation is a `String × Option String` pair, since the second
Python argument may be `None`. -/

/-- Python truthiness of the optional transcription string. -/
def truthy : Option String → Bool
  | none => false
  | some s => !(s == "")

/-- The dispatch tail of one processing cycle: returns the callback
invocations made and the updated `last_transcription_time`.  `now` is the
value of `time.time()` at the dispatch point. -/
def dispatchCycle (cb : Bool) (res : Option String × Option String)
    (now lastT : ℚ) : List (String × Option String) × ℚ :=
  if truthy res.1 && cb then ([(res.1.getD "", res.2)], now)
  else if now - lastT > keepalive_threshold then
    (if cb then [("", some "")] else [], lastT)
  else ([], lastT)

/-- The dispatch behaviour over a run of cycles: each cycle contributes its
chunk result and the wall-clock time at its dispatch point; returns all
callback invocations in order. -/
def runDispatch (cb : Bool) :
    List ((Option String × Option String) × ℚ) → ℚ → List (String × Option String)
  | [], _ => []
  | (res, now) :: rest, lastT =>
    (dispatchCycle cb res now lastT).1 ++ runDispatch cb rest (dispatchCycle cb res now lastT).2

/-! ## Frame collection and chunk assembly (`process_audio`, lines 303–329)

The inner collection loop interacts with the frame queue via
`self.buffer.get(timeout=0.1)`; each attempt either yields a frame or times
out (`queue.Empty`).  An `Event` records one attempt together with the value
of `time.time()` right after it. -/

inductive Event where
  /-- `buffer.get` returned frame `f`; the clock reads `t` afterwards. -/
  | got (f : List ℚ) (t : ℚ)
  /-- `buffer.get` raised `queue.Empty`; the clock reads `t` afterwards. -/
  | empty (t : ℚ)
  deriving Repr, DecidableEq

/-- Result of the collection loop on a finite event trace. -/
structure CollectOut where
  /-- `audio_chunks`: frames collected, in pop order. -/
  frames : List (List ℚ)
  /-- Events not consumed by this cycle. -/
  rest : List Event
  /-- The clock after the last consumed event. -/
  clock : ℚ
  /-- `true` when the loop exited (target size reached, or ceiling break);
  `false` when the trace was exhausted with the loop still polling. -/
  exited : Bool
  deriving Repr, DecidableEq

/-- The collection loop
```
while current_size < self.samples_per_chunk and self.running:
    try:
        chunk = self.buffer.get(timeout=0.1)
        audio_chunks.append(chunk); current_size += len(chunk)
        if time.time() - start_time > self.buffer_duration * 1.5:
            break
    except queue.Empty:
        continue
```
with `running` held true throughout, `target = samples_per_chunk` and
`ceiling = buffer_duration * 1.5`. -/
def collectFrames (target : ℕ) (startTime ceiling : ℚ) :
    List Event → List (List ℚ) → ℕ → ℚ → CollectOut
  | evs, acc, size, clock =>
    if target ≤ size then ⟨acc, evs, clock, true⟩
    else
      match evs with
      | [] => ⟨acc, [], clock, false⟩
      | .got f t :: rest =>
        if t - startTime > ceiling then ⟨acc ++ [f], rest, t, true⟩
        else collectFrames target startTime ceiling rest (acc ++ [f]) (size + f.length) t
      | .empty t :: rest => collectFrames target startTime ceiling rest acc size t

/-- `audio_data = np.concatenate(audio_chunks)` followed by
`if len(audio_data) > self.samples_per_chunk: audio_data = audio_data[:self.samples_per_chunk]`. -/
def truncateChunk (target : ℕ) (xs : List ℚ) : List ℚ :=
  if target < xs.length then xs.take target else xs

/-- The outer processing loop restricted to chunk assembly: each iteration
collects frames, skips the cycle when nothing was collected
(`if not audio_chunks: continue`), and otherwise emits the truncated
concatenation downstream.  `fuel` bounds the number of outer iterations
(the `running` flag's lifetime); the next cycle's `start_time` is the clock
reached by the previous one. -/
def runAssembly (target : ℕ) (ceiling : ℚ) :
    ℕ → List Event → ℚ → List (List ℚ)
  | 0, _, _ => []
  | Nat.succ fuel, events, startTime =>
    let out := collectFrames target startTime ceiling events [] 0 startTime
    if out.exited then
      if out.frames.isEmpty then runAssembly target ceiling fuel out.rest out.clock
      else truncateChunk target out.frames.flatten :: runAssembly target ceiling fuel out.rest out.clock
    else []

/-! ## Pipeline lifecycle (`start_transcription`, lines 352–381) -/

/-- The mutable pipeline state touched by `start_transcription`. -/
structure PipelineState where
  /-- `self.running`. -/
  running : Bool
  /-- `self.stream` is a live `sd.InputStream` (`none` ↦ `None`). -/
  streamOpen : Bool
  /-- `self.processing_thread` is a live thread (`none` ↦ `None`). -/
  threadActive : Bool
  /-- Frames currently in `self.buffer`. -/
  buffer : List (List ℚ)
  deriving Repr, DecidableEq

/-- Observable outcome of a `start_transcription()` call. -/
inductive StartResult where
  /-- Early return with `logger.warning("Transcription already running")`. -/
  | warnedAlreadyRunning
  /-- Stream opened and processing thread spawned. -/
  | started
  /-- Device open failed: `running` reset to `False`, exception re-raised. -/
  | raisedError
  deriving Repr, DecidableEq

/-- `start_transcription()`; `openOk` models whether `sd.InputStream`
construction succeeds. -/
def start_transcription (s : PipelineState) (openOk : Bool) :
    PipelineState × StartResult :=
  if s.running then (s, .warnedAlreadyRunning)
  else if openOk then
    ({ running := true, streamOpen := true, threadActive := true,
       buffer := s.buffer }, .started)
  else ({ s with running := false }, .raisedError)

/-! ## Helper lemmas -/

/-- When the silence gate passes (`¬ peak < min_audio_level`), the chunk is
normalized by the peak and handed to the transcription engine, whatever the
engine oracles return. -/
theorem process_audio_chunk_normalizes (cfg : TransCfg) (segs : List String)
    (engine : Option String) (xs : List ℚ)
    (h : ¬ peakAmplitude xs < min_audio_level) :
    (process_audio_chunk cfg segs engine xs).transcribeCalled = true ∧
    (process_audio_chunk cfg segs engine xs).transcribeInput
      = some (xs.map (· / peakAmplitude xs)) ∧
    (process_audio_chunk cfg segs engine xs).divisor = some (peakAmplitude xs) := by
  have hp : 0 < peakAmplitude xs :=
    lt_of_lt_of_le (by norm_num [min_audio_level]) (not_lt.mp h)
  simp only [process_audio_chunk, if_neg h, if_pos hp]
  split
  · exact ⟨rfl, rfl, rfl⟩
  · split
    · exact ⟨rfl, rfl, rfl⟩
    · exact ⟨rfl, rfl, rfl⟩

theorem peakAmplitude_replicate_zero (n : ℕ) :
    peakAmplitude (List.replicate n 0) = 0 := by
  induction n with
  | zero => rfl
  | succ k ih => simp [List.replicate_succ, ih]

theorem truncateChunk_eq_take (target : ℕ) (xs : List ℚ) :
    truncateChunk target xs = xs.take target := by
  unfold truncateChunk
  split
  · rfl
  · exact (List.take_of_length_le (Nat.le_of_not_lt ‹_›)).symm

/-! ## Claim theorems -/

/-- C5: a chunk whose peak absolute amplitude is strictly below the minimum
audio level `0.01` is discarded before reaching the transcription engine:
`transcribe` is not invoked for it (so the engine invocation count is
unchanged) and the chunk yields `(None, None)`. -/
theorem C5_silence_gate_blocks_engine (cfg : TransCfg) (segs : List String)
    (engine : Option String) (xs : List ℚ)
    (h : peakAmplitude xs < min_audio_level) :
    (process_audio_chunk cfg segs engine xs).transcribeCalled = false ∧
    (process_audio_chunk cfg segs engine xs).result = (none, none) := by
  simp [process_audio_chunk, h]

/-- Witness for C5 at the all-zero one-sample chunk `[0]`. -/
theorem C5_silence_gate_blocks_engine_witness :
    (process_audio_chunk ⟨"en", true, true⟩ [] none [0]).transcribeCalled = false ∧
    (process_audio_chunk ⟨"en", true, true⟩ [] none [0]).result = (none, none) :=
  C5_silence_gate_blocks_engine ⟨"en", true, true⟩ [] none [0]
    (by norm_num [min_audio_level])

/-- C6: a chunk whose peak absolute amplitude is at least the minimum audio
level `0.01` is forwarded to the transcription engine with every sample
divided by the peak, so the forwarded buffer's peak is exactly `1` and every
forwarded sample lies in `[-1, 1]`. -/
theorem C6_normalized_chunk_forwarded (cfg : TransCfg) (segs : List String)
    (engine : Option String) (xs : List ℚ)
    (h : min_audio_level ≤ peakAmplitude xs) :
    (process_audio_chunk cfg segs engine xs).transcribeInput
      = some (xs.map (· / peakAmplitude xs)) ∧
    peakAmplitude (xs.map (· / peakAmplitude xs)) = 1 ∧
    ∀ y ∈ xs.map (· / peakAmplitude xs), -1 ≤ y ∧ y ≤ 1 := by
  have hp : 0 < peakAmplitude xs :=
    lt_of_lt_of_le (by norm_num [min_audio_level]) h
  refine ⟨(process_audio_chunk_normalizes cfg segs engine xs (not_lt.mpr h)).2.1,
    ?_, ?_⟩
  · rw [peakAmplitude_map_div hp, div_self (ne_of_gt hp)]
  · intro y hy
    rcases List.mem_map.mp hy with ⟨x, hx, rfl⟩
    have hle : |x / peakAmplitude xs| ≤ 1 := by
      rw [abs_div, abs_of_pos hp, div_le_one hp]
      exact abs_le_peakAmplitude hx
    exact abs_le.mp hle

/-- Witness for C6 at the chunk `[1]`. -/
theorem C6_normalized_chunk_forwarded_witness :
    (process_audio_chunk ⟨"en", true, true⟩ [] none [1]).transcribeInput
      = some ([1].map (· / peakAmplitude [1])) ∧
    peakAmplitude ([1].map (· / peakAmplitude [1])) = 1 ∧
    ∀ y ∈ [1].map (· / peakAmplitude [1]), -1 ≤ y ∧ y ≤ 1 :=
  C6_normalized_chunk_forwarded ⟨"en", true, true⟩ [] none [1]
    (by norm_num [min_audio_level])

/-- C10: the division by the peak amplitude in `process_audio_chunk` runs
only under the guards `peak ≥ 0.01` and `peak > 0`, so whenever a divisor is
used it is at least `0.01` (hence strictly positive), and on an all-zero
chunk no division is performed at all. -/
theorem C10_division_guard (cfg : TransCfg) (segs : List String)
    (engine : Option String) :
    (∀ (xs : List ℚ) (d : ℚ),
        (process_audio_chunk cfg segs engine xs).divisor = some d →
        min_audio_level ≤ d ∧ 0 < d) ∧
    ∀ n : ℕ,
      (process_audio_chunk cfg segs engine (List.replicate n 0)).divisor = none := by
  constructor
  · intro xs d hd
    by_cases h : peakAmplitude xs < min_audio_level
    · simp [process_audio_chunk, h] at hd
    · have hp : 0 < peakAmplitude xs :=
        lt_of_lt_of_le (by norm_num [min_audio_level]) (not_lt.mp h)
      have hdiv := (process_audio_chunk_normalizes cfg segs engine xs h).2.2
      rw [hdiv] at hd
      obtain rfl : peakAmplitude xs = d := Option.some.inj hd
      exact ⟨not_lt.mp h, hp⟩
  · intro n
    simp [process_audio_chunk, peakAmplitude_replicate_zero, min_audio_level]

/-- Witness for C10: the divisor actually used on the chunk `[1]` is `1`,
which satisfies both guard bounds. -/
theorem C10_division_guard_witness :
    min_audio_level ≤ (1 : ℚ) ∧ (0 : ℚ) < 1 :=
  (C10_division_guard ⟨"en", true, true⟩ [] none).1 [1] 1
    (by norm_num [process_audio_chunk, min_audio_level,
      show joinSegments [] = "" from rfl])

/-- C7: the translation engine is invoked only when the target language
differs from `"en"`, the joined transcription is non-empty, and the
translation subsystem initialized successfully (`translation_available` set
and the model loaded); and when the engine is invoked but fails (`none`
oracle), the transcription is still returned and dispatched to the
callback — a translation failure never suppresses a transcription. -/
theorem C7_translation_gating (cfg : TransCfg) (segs : List String)
    (engine : Option String) (xs : List ℚ) :
    ((process_audio_chunk cfg segs engine xs).translateCalled = true →
      cfg.targetLanguage ≠ "en" ∧ joinSegments segs ≠ "" ∧
      cfg.translationAvailable = true ∧ cfg.modelLoaded = true) ∧
    ((process_audio_chunk cfg segs engine xs).translateCalled = true →
      engine = none →
      (process_audio_chunk cfg segs engine xs).result
        = (some (joinSegments segs), none) ∧
      ∀ now lastT : ℚ,
        (dispatchCycle true (process_audio_chunk cfg segs engine xs).result
            now lastT).1
          = [(joinSegments segs, none)]) := by
  by_cases h1 : peakAmplitude xs < min_audio_level
  · simp [process_audio_chunk, h1]
  · by_cases h2 : joinSegments segs = ""
    · simp [process_audio_chunk, h1, h2]
    · by_cases h3 : cfg.targetLanguage = "en"
      · simp [process_audio_chunk, h1, h2, h3]
      · by_cases h4 : cfg.translationAvailable = true
        · by_cases h5 : cfg.modelLoaded = true
          · constructor
            · intro _
              exact ⟨h3, h2, h4, h5⟩
            · intro _ hengine
              subst hengine
              have hres : (process_audio_chunk cfg segs none xs).result
                  = (some (joinSegments segs), none) := by
                simp [process_audio_chunk, h1, h2, h3, translate_text, h4, h5]
              refine ⟨hres, fun now lastT => ?_⟩
              rw [hres]
              simp [dispatchCycle, truthy, h2]
          · simp [process_audio_chunk, h1, h2, h3, translate_text, h4, h5]
        · simp [process_audio_chunk, h1, h2, h3, translate_text, h4]

/-- Witness for C7: target `"fr"`, transcription `"hello"`, failing
translation engine — the callback still receives the transcription. -/
theorem C7_translation_gating_witness :
    ((⟨"fr", true, true⟩ : TransCfg).targetLanguage ≠ "en" ∧
      joinSegments ["hello"] ≠ "" ∧
      (⟨"fr", true, true⟩ : TransCfg).translationAvailable = true ∧
      (⟨"fr", true, true⟩ : TransCfg).modelLoaded = true) ∧
    (dispatchCycle true
        (process_audio_chunk ⟨"fr", true, true⟩ ["hello"] none [1]).result 3 0).1
      = [(joinSegments ["hello"], none)] :=
  ⟨(C7_translation_gating ⟨"fr", true, true⟩ ["hello"] none [1]).1
      (by norm_num [process_audio_chunk, min_audio_level, translate_text,
        show joinSegments ["hello"] = "hello" from rfl,
        show ("hello" : String) ≠ "" from by decide,
        show ("fr" : String) ≠ "en" from by decide]),
   ((C7_translation_gating ⟨"fr", true, true⟩ ["hello"] none [1]).2
      (by norm_num [process_audio_chunk, min_audio_level, translate_text,
        show joinSegments ["hello"] = "hello" from rfl,
        show ("hello" : String) ≠ "" from by decide,
        show ("fr" : String) ≠ "en" from by decide]) rfl).2 3 0⟩

/-- C8: language validation resolves `"fr"`, `"French"` and `"FRENCH"` to the
code `fr` (exact code match, or case-insensitive name match), and any input
that is neither a known code nor a known name resolves to the default `en`
with the warning recorded; the function is total, so no input raises. -/
theorem C8_validate_language_resolution :
    validate_language "fr" = ("fr", false) ∧
    validate_language "French" = ("fr", false) ∧
    validate_language "FRENCH" = ("fr", false) ∧
    ∀ s : String, (available_languages.map Prod.snd).contains s = false →
      available_languages.find? (fun p => lowerStr s == lowerStr p.1) = none →
      validate_language s = ("en", true) := by
  refine ⟨by decide, by decide, by decide, fun s h1 h2 => ?_⟩
  simp only [validate_language, h1, h2, Bool.false_eq_true, if_false]

/-- Witness for C8 at the unrecognized input `"xx"`. -/
theorem C8_validate_language_resolution_witness :
    validate_language "xx" = ("en", true) :=
  C8_validate_language_resolution.2.2.2 "xx" (by decide) (by decide)

/-- C9: calling `start_transcription` while the pipeline is already running
is a no-op apart from the logged warning: the state (running flag, stream,
processing thread, frame buffer) is returned unchanged, and no stream or
thread is created. -/
theorem C9_start_noop_when_running (s : PipelineState) (openOk : Bool)
    (h : s.running = true) :
    start_transcription s openOk = (s, .warnedAlreadyRunning) := by
  simp [start_transcription, h]

/-- Witness for C9 at a concrete running state. -/
theorem C9_start_noop_when_running_witness :
    start_transcription ⟨true, true, true, [[1]]⟩ true
      = (⟨true, true, true, [[1]]⟩, .warnedAlreadyRunning) :=
  C9_start_noop_when_running ⟨true, true, true, [[1]]⟩ true rfl

/-- C2: when a collection cycle's popped frames reach or exceed the target
chunk length (`samples_per_chunk = 32000`), the chunk handed downstream is
exactly the first `samples_per_chunk` samples of the concatenation — its
length is exactly the target — and the run continues from the remaining
queue events only, so the overflow samples are discarded, not carried into
the next chunk. -/
theorem C2_chunk_truncated_to_target (fuel : ℕ) (events : List Event) (st : ℚ)
    (hex : (collectFrames samples_per_chunk st assembly_ceiling events [] 0 st).exited
      = true)
    (hlen : samples_per_chunk ≤
      (collectFrames samples_per_chunk st assembly_ceiling events [] 0
          st).frames.flatten.length) :
    runAssembly samples_per_chunk assembly_ceiling (fuel + 1) events st
      = (collectFrames samples_per_chunk st assembly_ceiling events [] 0
            st).frames.flatten.take samples_per_chunk
        :: runAssembly samples_per_chunk assembly_ceiling fuel
            (collectFrames samples_per_chunk st assembly_ceiling events [] 0 st).rest
            (collectFrames samples_per_chunk st assembly_ceiling events [] 0 st).clock ∧
    ((collectFrames samples_per_chunk st assembly_ceiling events [] 0
        st).frames.flatten.take samples_per_chunk).length = samples_per_chunk := by
  set out := collectFrames samples_per_chunk st assembly_ceiling events [] 0 st
    with hout
  have hne : out.frames.isEmpty = false := by
    rcases hFrames : out.frames with _ | ⟨f, fs⟩
    · rw [hFrames] at hlen
      simp [samples_per_chunk, sample_rate, buffer_duration] at hlen
    · rfl
  constructor
  · show runAssembly samples_per_chunk assembly_ceiling (fuel + 1) events st = _
    rw [show fuel + 1 = Nat.succ fuel from rfl, runAssembly, ← hout]
    rw [hex]
    simp only [if_true, hne, Bool.false_eq_true, if_false, truncateChunk_eq_take]
  · rw [List.length_take]
    exact min_eq_left hlen

/-- Witness for C2: one 32000-sample frame reaches the target; the emitted
chunk length is exactly `samples_per_chunk`. -/
theorem C2_chunk_truncated_to_target_witness :
    ((collectFrames samples_per_chunk 0 assembly_ceiling
        [Event.got (List.replicate 32000 (1 / 2)) 1] [] 0 0).frames.flatten.take
      samples_per_chunk).length = samples_per_chunk :=
  (C2_chunk_truncated_to_target 0 [Event.got (List.replicate 32000 (1 / 2)) 1] 0
    (by norm_num [collectFrames, samples_per_chunk, sample_rate, buffer_duration,
      assembly_ceiling])
    (by norm_num [collectFrames, samples_per_chunk, sample_rate, buffer_duration,
      assembly_ceiling])).2

/-- C1 counterexample: with the callback registered and no informative result
ever produced, cycles dispatching at times 6 and 7 (timer start 0) each fire
a `("", "")` keepalive: two keepalives occur before any informative result,
only 1 second apart — the claim's "exactly one keepalive, then the timer is
reset for a full 5.0-second interval" fails on the code, which never resets
`last_transcription_time` on a keepalive. -/
theorem C1_counterexample_two_keepalives :
    runDispatch true [((none, none), 6), ((none, none), 7)] 0
      = [("", some ""), ("", some "")] ∧
    (7 : ℚ) - 6 < keepalive_threshold := by
  constructor
  · norm_num [runDispatch, dispatchCycle, truthy, keepalive_threshold]
  · norm_num [keepalive_threshold]

/-- C1 (amended): once elapsed time since the last informative result exceeds
the 5.0-second threshold, a cycle with an empty transcription fires one
`("", "")` keepalive, but the elapsed-time timer is NOT reset by the
keepalive — only an informative result resets it (to the dispatch time) — so
a keepalive fires again on every subsequent empty cycle rather than at most
once per threshold interval. -/
theorem C1_keepalive_fires_without_reset (res : Option String × Option String)
    (now lastT : ℚ) (hres : truthy res.1 = false)
    (ht : now - lastT > keepalive_threshold) :
    dispatchCycle true res now lastT = ([("", some "")], lastT) ∧
    ∀ (s : String) (trans : Option String) (now' : ℚ), s ≠ "" →
      dispatchCycle true (some s, trans) now' lastT = ([(s, trans)], now') := by
  constructor
  · simp [dispatchCycle, hres, ht]
  · intro s trans now' hs
    simp [dispatchCycle, truthy, hs]

/-- Witness for C1 (amended) at an empty cycle at time 6 with timer start 0:
the keepalive fires and the timer is left at 0. -/
theorem C1_keepalive_fires_without_reset_witness :
    dispatchCycle true ((none : Option String), (none : Option String)) 6 0
      = ([("", some "")], 0) :=
  (C1_keepalive_fires_without_reset (none, none) 6 0 rfl
    (by norm_num [keepalive_threshold])).1

/-- C3 counterexample: with the default target language `"en"` (translation
disabled) and a chunk transcribed as `"hello"`, the callback is invoked with
`("hello", None)` — the translation argument is the absent value `None`, not
a string, refuting "the translation argument is never an absent/None
value". -/
theorem C3_counterexample_none_translation :
    (dispatchCycle true
        (process_audio_chunk ⟨"en", true, true⟩ ["hello"] none [1]).result 1 0).1
      = [("hello", none)] := by
  norm_num [dispatchCycle, process_audio_chunk, truthy, min_audio_level,
    keepalive_threshold,
    show joinSegments ["hello"] = "hello" from rfl,
    show ("hello" : String) ≠ "" from by decide]

/-- C3 (amended): every callback invocation carries a present transcription
string, but the translation argument is an `Option`: an informative
invocation passes the chunk's translation through unchanged — `None`
whenever translation is disabled or failed — while a keepalive invocation
passes both arguments as empty strings. -/
theorem C3_callback_argument_shape (cb : Bool)
    (res : Option String × Option String) (now lastT : ℚ) :
    ∀ e ∈ (dispatchCycle cb res now lastT).1,
      e = ("", some "") ∨
      ∃ s : String, res.1 = some s ∧ s ≠ "" ∧ e = (s, res.2) := by
  intro e he
  unfold dispatchCycle at he
  split_ifs at he with h1 h2 h3
  · have ht : truthy res.1 = true := by
      cases htr : truthy res.1
      · rw [htr] at h1
        simp at h1
      · rfl
    rcases hres : res.1 with _ | s
    · rw [hres] at ht
      simp [truthy] at ht
    · right
      refine ⟨s, rfl, ?_, ?_⟩
      · rw [hres] at ht
        simpa [truthy] using ht
      · rw [List.mem_singleton.mp he, hres]
        rfl
  · exact Or.inl (List.mem_singleton.mp he)
  · cases he
  · cases he

/-- Witness for C3 (amended): the invocation `("hi", None)` made for an
informative result with no translation has the amended shape. -/
theorem C3_callback_argument_shape_witness :
    ("hi", (none : Option String)) = ("", some "") ∨
    ∃ s : String, (some "hi" : Option String) = some s ∧ s ≠ "" ∧
      ("hi", (none : Option String)) = (s, (none : Option String)) :=
  C3_callback_argument_shape true (some "hi", none) 1 0 ("hi", none)
    (by simp [dispatchCycle, truthy])

/-- C4 counterexample: with no frames arriving at all, poll timeouts at times
10 and 20 — both far past the assembly ceiling of 3 seconds after the cycle
start at 0 — do not stop the collection loop: it consumes both events and is
still polling (`exited = false`), and no chunk is ever emitted.  The claim's
"once the ceiling has elapsed the collection loop stops popping and emission
proceeds" fails on the code, whose ceiling check runs only after a
successful pop. -/
theorem C4_counterexample_absent_input_stalls :
    (collectFrames samples_per_chunk 0 assembly_ceiling
        [Event.empty 10, Event.empty 20] [] 0 0).exited = false ∧
    (10 : ℚ) - 0 > assembly_ceiling ∧
    runAssembly samples_per_chunk assembly_ceiling 5
      [Event.empty 10, Event.empty 20] 0 = [] := by
  refine ⟨?_, ?_, ?_⟩ <;>
    norm_num [collectFrames, runAssembly, samples_per_chunk, sample_rate,
      buffer_duration, assembly_ceiling]

/-- C4 (amended): the assembly-window ceiling is enforced only at successful
frame pops: a pop completing past the ceiling ends collection at once (the
popped frame is kept and emission proceeds with what was collected), while
an empty poll timeout never triggers the ceiling check, whatever the elapsed
time — so wholly absent input leaves the loop polling. -/
theorem C4_ceiling_checked_after_pop (target : ℕ) (st ceiling clock t : ℚ)
    (f : List ℚ) (rest : List Event) (acc : List (List ℚ)) (size : ℕ)
    (hsize : size < target) (ht : t - st > ceiling) :
    collectFrames target st ceiling (Event.got f t :: rest) acc size clock
      = ⟨acc ++ [f], rest, t, true⟩ ∧
    ∀ t' : ℚ, collectFrames target st ceiling (Event.empty t' :: rest) acc size clock
      = collectFrames target st ceiling rest acc size t' := by
  constructor
  · rw [collectFrames, if_neg (not_le.mpr hsize), if_pos ht]
  · intro t'
    rw [collectFrames, if_neg (not_le.mpr hsize)]

/-- Witness for C4 (amended): a frame popped at time 10, past the ceiling of
an assembly cycle started at 0, is kept and ends the collection. -/
theorem C4_ceiling_checked_after_pop_witness :
    collectFrames samples_per_chunk 0 assembly_ceiling
        [Event.got [1] 10] [] 0 0
      = ⟨[[1]], [], 10, true⟩ :=
  (C4_ceiling_checked_after_pop samples_per_chunk 0 assembly_ceiling 0 10 [1] [] [] 0
    (by norm_num [samples_per_chunk, sample_rate, buffer_duration])
    (by norm_num [assembly_ceiling, buffer_duration])).1

end Transcr
